import Mathlib

/-!
Verification of JitStreamer-EB's concurrency/queueing core against its
natural-language specification. The Rust sources are shallowly embedded:
pure control flow becomes Lean functions, the SQLite-backed queue store
becomes explicit state passing over a table value, and the asynchronous
actors (the heartbeat orchestrator and the per-device keep-alive loop)
become step functions driven by oracle traces for the outcomes of their
I/O calls. Machine integers are modelled as `Nat` (with explicit `% 256`
where u8 overflow matters). A function that can panic in Rust (a failing
`unwrap`) returns `Option`, with `none` for the panic.
-/

set_option autoImplicit false

/-! ## Heartbeat orchestrator (src/heartbeat.rs, `heartbeat`)

The orchestrator is a single task owning `cache : HashMap<String, oneshot::Sender<()>>`
and draining a channel of `SendRequest` messages. Cancellation handles are
modelled as `Nat` identifiers; signalling a handle appends it to a `signaled`
log. The `HashMap` is modelled as an association list whose keys are unique
(which the theorems establish as an invariant of every reachable state). -/

/-- Source `SendRequest` (src/heartbeat.rs lines 16-19): `Store((udid, handle))`
or `Kill(udid)`. -/
inductive SendRequest where
  | store (udid : String) (handle : Nat)
  | kill (udid : String)
deriving DecidableEq, Repr

/-- Model of `HashMap::insert`: replaces the entry for `u` (returning the old
value) or appends a fresh one. -/
def cacheInsert : List (String × Nat) → String → Nat → List (String × Nat) × Option Nat
  | [], u, h => ([(u, h)], none)
  | (k, v) :: rest, u, h =>
    if k = u then ((u, h) :: rest, some v)
    else
      let r := cacheInsert rest u h
      ((k, v) :: r.1, r.2)

/-- Model of `HashMap::remove`: removes the entry for `u`, returning the old
value if present. -/
def cacheRemove : List (String × Nat) → String → List (String × Nat) × Option Nat
  | [], _ => ([], none)
  | (k, v) :: rest, u =>
    if k = u then (rest, some v)
    else
      let r := cacheRemove rest u
      ((k, v) :: r.1, r.2)

/-- The orchestrator's state: the device-id → handle map, plus the log of
handles that have been signalled (`old_sender.send(()).ok()`). -/
structure HBState where
  cache : List (String × Nat)
  signaled : List Nat
deriving DecidableEq, Repr

/-- One message processed by the orchestrator loop (src/heartbeat.rs lines 26-38):
`Store` inserts the new handle and signals the displaced one if any; `Kill`
removes and signals the stored handle if any. -/
def heartbeat_actor_step (st : HBState) (msg : SendRequest) : HBState :=
  match msg with
  | .store u h =>
    let r := cacheInsert st.cache u h
    { cache := r.1
      signaled :=
        match r.2 with
        | some old => old :: st.signaled
        | none => st.signaled }
  | .kill u =>
    let r := cacheRemove st.cache u
    { cache := r.1
      signaled :=
        match r.2 with
        | some old => old :: st.signaled
        | none => st.signaled }

/-- The orchestrator run from its initial state (`cache` starts empty,
src/heartbeat.rs line 25) over a sequence of messages, processed in arrival
order. -/
def heartbeat_actor_run (msgs : List SendRequest) : HBState :=
  msgs.foldl heartbeat_actor_step ⟨[], []⟩

/-! Lemmas about the association-list model. -/

theorem cacheInsert_snd (l : List (String × Nat)) (u : String) (h : Nat) :
    (cacheInsert l u h).2 = l.lookup u := by
  induction l with
  | nil => rfl
  | cons x rest ih =>
    obtain ⟨k, v⟩ := x
    by_cases hk : k = u
    · subst hk
      simp [cacheInsert, List.lookup]
    · have hne : (u == k) = false := by
        simp only [beq_eq_false_iff_ne]
        exact fun e => hk e.symm
      simp [cacheInsert, hk, List.lookup, hne, ih]

theorem cacheInsert_lookup (l : List (String × Nat)) (u : String) (h : Nat) :
    (cacheInsert l u h).1.lookup u = some h := by
  induction l with
  | nil => simp [cacheInsert, List.lookup]
  | cons x rest ih =>
    obtain ⟨k, v⟩ := x
    by_cases hk : k = u
    · subst hk
      simp [cacheInsert, List.lookup]
    · have hne : (u == k) = false := by
        simp only [beq_eq_false_iff_ne]
        exact fun e => hk e.symm
      simp [cacheInsert, hk, List.lookup, hne, ih]

theorem cacheRemove_of_lookup_none (l : List (String × Nat)) (u : String)
    (h : l.lookup u = none) : cacheRemove l u = (l, none) := by
  induction l with
  | nil => rfl
  | cons x rest ih =>
    obtain ⟨k, v⟩ := x
    by_cases hk : k = u
    · subst hk
      simp [List.lookup] at h
    · have hne : (u == k) = false := by
        simp only [beq_eq_false_iff_ne]
        exact fun e => hk e.symm
      simp only [List.lookup, hne] at h
      simp [cacheRemove, hk, ih h]

theorem cacheInsert_keys_subset (l : List (String × Nat)) (u : String) (h : Nat) :
    ∀ x ∈ (cacheInsert l u h).1.map Prod.fst, x = u ∨ x ∈ l.map Prod.fst := by
  induction l with
  | nil => simp [cacheInsert]
  | cons p rest ih =>
    obtain ⟨k, v⟩ := p
    by_cases hk : k = u
    · subst hk
      intro x hx
      simp [cacheInsert] at hx
      rcases hx with hx | hx
      · exact Or.inl hx
      · exact Or.inr (by simp [hx])
    · intro x hx
      simp [cacheInsert, hk] at hx
      rcases hx with hx | hx
      · exact Or.inr (by simp [hx])
      · rcases ih x (by simpa using hx) with h1 | h1
        · exact Or.inl h1
        · exact Or.inr (by simp [h1])

theorem cacheInsert_keys_nodup (l : List (String × Nat)) (u : String) (h : Nat)
    (hn : (l.map Prod.fst).Nodup) : ((cacheInsert l u h).1.map Prod.fst).Nodup := by
  induction l with
  | nil => simp [cacheInsert]
  | cons p rest ih =>
    obtain ⟨k, v⟩ := p
    simp only [List.map_cons, List.nodup_cons] at hn
    by_cases hk : k = u
    · subst hk
      simpa [cacheInsert] using hn
    · have tail := ih hn.2
      have hk' : k ∉ List.map Prod.fst (cacheInsert rest u h).1 := by
        intro hmem
        rcases cacheInsert_keys_subset rest u h k hmem with h1 | h1
        · exact hk h1
        · exact hn.1 h1
      simp only [cacheInsert, if_neg hk, List.map_cons, List.nodup_cons]
      exact ⟨hk', tail⟩

theorem cacheRemove_sublist (l : List (String × Nat)) (u : String) :
    (cacheRemove l u).1.Sublist l := by
  induction l with
  | nil => simp [cacheRemove]
  | cons p rest ih =>
    obtain ⟨k, v⟩ := p
    by_cases hk : k = u
    · simp only [cacheRemove, if_pos hk]
      exact List.sublist_cons_self (k, v) rest
    · simp only [cacheRemove, if_neg hk]
      exact List.Sublist.cons₂ (k, v) ih

theorem heartbeat_step_keys_nodup (st : HBState) (msg : SendRequest)
    (hn : (st.cache.map Prod.fst).Nodup) :
    ((heartbeat_actor_step st msg).cache.map Prod.fst).Nodup := by
  cases msg with
  | store u h => exact cacheInsert_keys_nodup st.cache u h hn
  | kill u =>
    exact List.Nodup.sublist (List.Sublist.map Prod.fst (cacheRemove_sublist st.cache u)) hn

theorem heartbeat_run_keys_nodup_aux (msgs : List SendRequest) :
    ∀ st : HBState, (st.cache.map Prod.fst).Nodup →
      ((msgs.foldl heartbeat_actor_step st).cache.map Prod.fst).Nodup := by
  induction msgs with
  | nil => intro st h; simpa using h
  | cons m rest ih =>
    intro st h
    exact ih (heartbeat_actor_step st m) (heartbeat_step_keys_nodup st m h)

theorem count_le_one_of_keys_nodup (l : List (String × Nat)) (u : String)
    (hn : (l.map Prod.fst).Nodup) : l.countP (fun e => e.1 == u) ≤ 1 := by
  have h1 : l.countP (fun e => e.1 == u) = (l.map Prod.fst).countP (· == u) := by
    rw [List.countP_map]
    rfl
  rw [h1]
  have := List.nodup_iff_count_le_one.mp hn u
  simpa [List.count] using this

/-- C1. At every point in a run of the Heartbeat Orchestrator from its initial
state, the map holds at most one handle per device id; a `Store` for a device
that already holds a handle signals the old handle and replaces it with the
new one; a `Kill` for an absent device id leaves the whole state unchanged
(the step is total, so absence is never an error). -/
theorem heartbeat_exclusive_handles :
    (∀ (msgs : List SendRequest) (u : String),
      (heartbeat_actor_run msgs).cache.countP (fun e => e.1 == u) ≤ 1)
    ∧ (∀ (st : HBState) (u : String) (h hOld : Nat),
        st.cache.lookup u = some hOld →
          (heartbeat_actor_step st (.store u h)).cache.lookup u = some h
          ∧ hOld ∈ (heartbeat_actor_step st (.store u h)).signaled)
    ∧ (∀ (st : HBState) (u : String),
        st.cache.lookup u = none → heartbeat_actor_step st (.kill u) = st) := by
  refine ⟨?_, ?_, ?_⟩
  · intro msgs u
    exact count_le_one_of_keys_nodup _ u
      (heartbeat_run_keys_nodup_aux msgs ⟨[], []⟩ (by simp))
  · intro st u h hOld hl
    constructor
    · exact cacheInsert_lookup st.cache u h
    · simp only [heartbeat_actor_step, cacheInsert_snd, hl]
      exact List.mem_cons_self hOld st.signaled
  · intro st u hl
    cases st with
    | mk cache signaled =>
      simp only [heartbeat_actor_step, cacheRemove_of_lookup_none cache u hl]

/-- Witness for C1: a concrete run — two Stores for "a" (the second displaces
and signals handle 1), a Kill for absent "b" that is a strict no-op, and the
at-most-one bound at "a". -/
theorem heartbeat_exclusive_handles_witness :
    (heartbeat_actor_run [.store "a" 1, .store "a" 2]).cache.countP (fun e => e.1 == "a") ≤ 1
    ∧ ((heartbeat_actor_step ⟨[("a", 1)], []⟩ (.store "a" 2)).cache.lookup "a" = some 2
        ∧ 1 ∈ (heartbeat_actor_step ⟨[("a", 1)], []⟩ (.store "a" 2)).signaled)
    ∧ heartbeat_actor_step ⟨[("a", 1)], []⟩ (.kill "b") = ⟨[("a", 1)], []⟩ :=
  ⟨heartbeat_exclusive_handles.1 [.store "a" 1, .store "a" 2] "a",
   heartbeat_exclusive_handles.2.1 ⟨[("a", 1)], []⟩ "a" 2 1 (by decide),
   heartbeat_exclusive_handles.2.2 ⟨[("a", 1)], []⟩ "b" (by decide)⟩

/-! ## Per-device keep-alive loop (src/heartbeat.rs, `heartbeat_thread`, lines 73-92)

The spawned loop repeatedly calls `get_marco(interval)` (breaking on `Err`),
then `send_polo()` (breaking on `Err`), then polls its cancellation receiver
with `try_recv()` (breaking on `Ok(())` — signalled — and on
`TryRecvError::Closed` — the stored sender was dropped; continuing on
`Empty`). The network outcomes are an oracle trace: one `HBRound` per loop
iteration, holding the results the device would return on that round. -/

/-- Result of `receiver.try_recv()` at the end of a round. -/
inductive RecvPoll where
  | empty
  | signaled
  | closed
deriving DecidableEq, Repr

/-- Oracle for one loop iteration: `marco` is the result of
`get_marco(interval)` (`some newInterval` for `Ok`, `none` for `Err`),
`polo` whether `send_polo()` succeeded, `recv` the `try_recv()` outcome. -/
structure HBRound where
  marco : Option Nat
  polo : Bool
  recv : RecvPoll
deriving DecidableEq, Repr

/-- Why the loop broke. -/
inductive StopCause where
  | marcoErr
  | poloErr
  | cancelSignaled
  | senderDropped
deriving DecidableEq, Repr

/-- The break the round `r` causes, if any, in the order the source checks:
`get_marco` error first, then `send_polo` error, then the cancellation poll.
`none` means the loop continues past this round. -/
def roundStop (r : HBRound) : Option StopCause :=
  match r.marco with
  | none => some .marcoErr
  | some _ =>
    if r.polo = false then some .poloErr
    else
      match r.recv with
      | .signaled => some .cancelSignaled
      | .closed => some .senderDropped
      | .empty => none

/-- The keep-alive loop over a finite oracle trace, threading the
server-supplied interval exactly as the source does (`interval` starts at 15
and is replaced by each `Ok` result of `get_marco`). Returns the number of
rounds executed and the stop cause, or `none` when the trace is exhausted with
the loop still running. -/
def heartbeat_thread_loop (interval : Nat) : List HBRound → Option (Nat × StopCause)
  | [] => none
  | r :: rest =>
    match r.marco with
    | none => some (1, .marcoErr)
    | some newInterval =>
      if r.polo = false then some (1, .poloErr)
      else
        match r.recv with
        | .signaled => some (1, .cancelSignaled)
        | .closed => some (1, .senderDropped)
        | .empty =>
          match heartbeat_thread_loop newInterval rest with
          | none => none
          | some (n, c) => some (n + 1, c)

/-- C9. The keep-alive loop stops at the first round that fails or observes a
cancellation: if every round before index `pre.length` runs clean and round
`pre.length` has a stop cause `c` (a `get_marco`/`send_polo` protocol error, a
cancellation signal, or the sender having been dropped), the loop executes
exactly `pre.length + 1` rounds and stops with cause `c` — the remaining trace
`rest` is never consumed, so a failed round is never retried. In particular a
round whose cancellation poll returns `Closed` (the stored handle was dropped
without being signalled) stops the loop with `senderDropped`. -/
theorem heartbeat_loop_head_stop (interval : Nat) (r : HBRound) (rest : List HBRound)
    (c : StopCause) (h : roundStop r = some c) :
    heartbeat_thread_loop interval (r :: rest) = some (1, c) := by
  obtain ⟨marco, polo, recv⟩ := r
  cases marco <;> cases polo <;> cases recv <;>
    simp_all [roundStop, heartbeat_thread_loop]

theorem heartbeat_loop_clean_cons (interval newInterval : Nat) (tail : List HBRound) :
    heartbeat_thread_loop interval (⟨some newInterval, true, .empty⟩ :: tail)
      = match heartbeat_thread_loop newInterval tail with
        | none => none
        | some (n, c) => some (n + 1, c) := by
  simp [heartbeat_thread_loop]

theorem heartbeat_loop_first_stop :
    (∀ (pre : List HBRound) (r : HBRound) (rest : List HBRound) (interval : Nat)
        (c : StopCause),
      (∀ x ∈ pre, roundStop x = none) → roundStop r = some c →
        heartbeat_thread_loop interval (pre ++ r :: rest) = some (pre.length + 1, c))
    ∧ (∀ m : Nat, roundStop ⟨some m, true, .closed⟩ = some .senderDropped) := by
  constructor
  · intro pre
    induction pre with
    | nil =>
      intro r rest interval c _ hr
      simpa using heartbeat_loop_head_stop interval r rest c hr
    | cons p pre ih =>
      intro r rest interval c hpre hr
      have hp : roundStop p = none := hpre p (List.mem_cons_self p pre)
      have hrest : ∀ x ∈ pre, roundStop x = none :=
        fun x hx => hpre x (List.mem_cons_of_mem p hx)
      obtain ⟨marco, polo, recv⟩ := p
      cases marco with
      | none => simp [roundStop] at hp
      | some newInterval =>
        cases polo with
        | false => simp [roundStop] at hp
        | true =>
          cases recv with
          | signaled => simp [roundStop] at hp
          | closed => simp [roundStop] at hp
          | empty =>
            have h2 := ih r rest newInterval c hrest hr
            rw [List.cons_append, heartbeat_loop_clean_cons, h2]
            simp
  · intro m
    rfl

/-- Witness for C9: two clean rounds, then a round whose `send_polo` fails —
the loop runs exactly 3 rounds and stops with `poloErr`, never touching the
rest of the trace (here a further clean round). -/
theorem heartbeat_loop_first_stop_witness :
    heartbeat_thread_loop 15
      [⟨some 15, true, .empty⟩, ⟨some 20, true, .empty⟩,
       ⟨some 20, false, .empty⟩, ⟨some 20, true, .empty⟩]
      = some (3, .poloErr)
    ∧ roundStop ⟨some 15, true, .closed⟩ = some .senderDropped :=
  ⟨heartbeat_loop_first_stop.1
      [⟨some 15, true, .empty⟩, ⟨some 20, true, .empty⟩]
      ⟨some 20, false, .empty⟩ [⟨some 20, true, .empty⟩] 15 .poloErr
      (by decide) (by decide),
   heartbeat_loop_first_stop.2 15⟩

/-! ## Queue store (src/mount.rs and src/debug_server.rs)

Both queues are SQLite tables (`mount_queue`, `launch_queue`) holding rows of
device id, optional address, optional launch target, integer status
(0 pending, 1 in progress, 2 error), optional error text, and a primary-key
ordinal. A table is modelled as the list of its rows in rowid (insertion)
order.

Modelled from the spec: the schema itself (src/sql/up.sql, loaded by
`include_str!` in src/main.rs) is not among the repository's files; per the
spec, the ordinal is a "strictly increasing integer unique within a
queue_kind, assigned at insertion and never reused", modelled as a per-table
`nextOrdinal` counter starting at 1 that every insert consumes and
increments.

Each SQL statement the source prepares is modelled over the row list:
`SELECT ... WHERE udid = ?` (first row in rowid order with that udid),
`SELECT ... WHERE ordinal = ?`, `DELETE ... WHERE ordinal = ?`, and
`SELECT COUNT(*) ... WHERE ordinal < ? AND status = 0`. Statement
preparation and storage-busy outcomes come from a `DbEnv` oracle; a failing
Rust `unwrap` makes the modelled function return `none` (a panic). -/

/-- One row of `mount_queue` / `launch_queue` (`bundle_id` is `none` for
mount rows, which have no such column). -/
structure QueueRow where
  udid : String
  ip : Option String
  bundle_id : Option String
  status : Nat
  error : Option String
  ordinal : Nat
deriving DecidableEq, Repr

/-- A queue table: rows in rowid order, plus the next ordinal to assign. -/
structure QueueTable where
  rows : List QueueRow
  nextOrdinal : Nat
deriving DecidableEq, Repr

/-- Oracle for one call's interaction with the storage backend: whether
`sqlite::open` succeeds, whether the i-th `prepare` of the call succeeds,
and whether the i-th execution attempt of a write statement reports that the
database is busy/locked. -/
structure DbEnv where
  dbOpen : Bool
  prep : Nat → Bool
  busy : Nat → Bool

/-- SELECT ... FROM q WHERE udid = ? (first row). -/
def findByUdid (rows : List QueueRow) (udid : String) : Option QueueRow :=
  rows.find? (fun r => r.udid == udid)

/-- SELECT ... FROM q WHERE ordinal = ? (first row). -/
def findByOrdinal (rows : List QueueRow) (o : Nat) : Option QueueRow :=
  rows.find? (fun r => r.ordinal == o)

/-- DELETE FROM q WHERE ordinal = ?. -/
def deleteByOrdinal (rows : List QueueRow) (o : Nat) : List QueueRow :=
  rows.filter (fun r => !(r.ordinal == o))

/-- SELECT COUNT(*) FROM q WHERE ordinal < ? AND status = 0. -/
def countPendingBelow (rows : List QueueRow) (o : Nat) : Nat :=
  rows.countP (fun r => decide (r.ordinal < o) && (r.status == 0))

/-- Source `LaunchQueueInfo` (src/debug_server.rs lines 9-14). -/
inductive LaunchQueueInfo where
  | Position (p : Nat)
  | NotInQueue
  | Error (e : String)
  | ServerError
deriving DecidableEq, Repr

/-- Source `MountQueueInfo` (src/mount.rs lines 7-13). -/
inductive MountQueueInfo where
  | Position (p : Nat)
  | InProgress
  | NotInQueue
  | Error (e : String)
  | ServerError
deriving DecidableEq, Repr

/-- src/debug_server.rs `get_queue_info` (lines 24-89). Open failure is
`ServerError`; every `prepare` here is `.unwrap()`ed, so a failing prepare is
a panic (`none`); a missing device row is `NotInQueue`; status 1 returns
`Position(0)`; status 2 reads the error text (a NULL error column panics the
`read::<String>.unwrap()`), deletes the row by ordinal and returns `Error`;
any other status returns `Position(COUNT(*) WHERE ordinal < ? AND status = 0)`
(the `COUNT` query always yields a row, so its `else ServerError` arm at line
82 is dead). Returns the info and the table afterwards. -/
def debug_server_get_queue_info (env : DbEnv) (t : QueueTable) (udid : String) :
    Option (LaunchQueueInfo × QueueTable) :=
  if env.dbOpen = false then some (.ServerError, t)
  else if env.prep 0 = false then none
  else
    match findByUdid t.rows udid with
    | none => some (.NotInQueue, t)
    | some row =>
      if row.status = 1 then some (.Position 0, t)
      else if row.status = 2 then
        if env.prep 1 = false then none
        else
          match (match findByOrdinal t.rows row.ordinal with
                 | some row2 => row2.error
                 | none => some "Unknown error") with
          | none => none
          | some msg =>
            if env.prep 2 = false then none
            else some (.Error msg, { t with rows := deleteByOrdinal t.rows row.ordinal })
      else
        if env.prep 1 = false then none
        else some (.Position (countPendingBelow t.rows row.ordinal), t)

/-- src/mount.rs `get_queue_info` (lines 22-111). Same shape as the launch
version, except every prepare goes through `db_prepare` and fails soft to
`ServerError`, and status 1 returns the distinct `InProgress`. -/
def mount_get_queue_info (env : DbEnv) (t : QueueTable) (udid : String) :
    Option (MountQueueInfo × QueueTable) :=
  if env.dbOpen = false then some (.ServerError, t)
  else if env.prep 0 = false then some (.ServerError, t)
  else
    match findByUdid t.rows udid with
    | none => some (.NotInQueue, t)
    | some row =>
      if row.status = 1 then some (.InProgress, t)
      else if row.status = 2 then
        if env.prep 1 = false then some (.ServerError, t)
        else
          match (match findByOrdinal t.rows row.ordinal with
                 | some row2 => row2.error
                 | none => some "Unknown error") with
          | none => none
          | some msg =>
            if env.prep 2 = false then some (.ServerError, t)
            else some (.Error msg, { t with rows := deleteByOrdinal t.rows row.ordinal })
      else
        if env.prep 1 = false then some (.ServerError, t)
        else some (.Position (countPendingBelow t.rows row.ordinal), t)

/-- Outcome of the INSERT retry loop of src/debug_server.rs `add_to_queue`
(lines 110-122), recording how many execution attempts were made. -/
inductive InsertOutcome where
  | inserted (attempts : Nat)
  | fellThrough (attempts : Nat)
  | earlyReturn (attempts : Nat)
deriving DecidableEq, Repr

/-- Mirror of the source loop
`let mut tries = 5; while tries > 0 { if err { if tries == 0 { return None; } tries -= 1; sleep(100ms) } else { break } }`:
the pattern `t + 1` is the current `tries` value, so the guarded
`return None` (`earlyReturn`) tests `t + 1 = 0` and can never fire; after the
last busy attempt the loop falls through (`fellThrough`) without having
inserted. -/
def insertRetryLoop (busy : Nat → Bool) : Nat → Nat → InsertOutcome
  | attempt, 0 => .fellThrough attempt
  | attempt, t + 1 =>
    if busy attempt then
      if t + 1 = 0 then .earlyReturn (attempt + 1)
      else insertRetryLoop busy (attempt + 1) t
    else .inserted (attempt + 1)

/-- The query at src/debug_server.rs line 125:
`SELECT COUNT(*) FROM launch_queue WHERE ordinal < (SELECT ordinal FROM launch_queue WHERE udid = ?) AND status = 0`
— the scalar subquery yields the first matching row's ordinal, or NULL (so
the comparison holds for no row and the count is 0) when the udid is absent. -/
def positionOfFirst (rows : List QueueRow) (udid : String) : Nat :=
  match findByUdid rows udid with
  | some r => countPendingBelow rows r.ordinal
  | none => 0

/-- src/debug_server.rs `add_to_queue` (lines 91-136). Open failure returns
`None` (the outer `Option Nat` of the result); the two prepares are
`.unwrap()`ed (panic on failure, the outer `none`); the INSERT is retried by
`insertRetryLoop`; then the COUNT query above computes the returned value.
The COUNT always yields a row, so the `else None` arm at line 131 is dead. -/
def debug_server_add_to_queue (env : DbEnv) (udid ip bundle_id : String)
    (t : QueueTable) : Option (Option Nat × QueueTable) :=
  if env.dbOpen = false then some (none, t)
  else if env.prep 0 = false then none
  else
    match insertRetryLoop env.busy 0 5 with
    | .earlyReturn _ => some (none, t)
    | .fellThrough _ =>
      if env.prep 1 = false then none
      else some (some (positionOfFirst t.rows udid), t)
    | .inserted _ =>
      let t' : QueueTable :=
        ⟨t.rows ++ [⟨udid, some ip, some bundle_id, 0, none, t.nextOrdinal⟩],
         t.nextOrdinal + 1⟩
      if env.prep 1 = false then none
      else some (some (positionOfFirst t'.rows udid), t')

/-- src/mount.rs `add_to_queue` (lines 113-139). Returns no value: an open
failure or a `db_prepare` failure just returns, and the single
`statement.next().unwrap()` panics (the outer `none`) if the INSERT errors. -/
def mount_add_to_queue (env : DbEnv) (udid ip : String) (t : QueueTable) :
    Option QueueTable :=
  if env.dbOpen = false then some t
  else if env.prep 0 = false then some t
  else if env.busy 0 then none
  else some ⟨t.rows ++ [⟨udid, some ip, none, 0, none, t.nextOrdinal⟩], t.nextOrdinal + 1⟩

/-- An all-success storage oracle. -/
def dbOk : DbEnv := ⟨true, fun _ => true, fun _ => false⟩

/-! Lemmas about the modelled SQL statements. -/

theorem findByUdid_mem {rows : List QueueRow} {udid : String} {r : QueueRow}
    (h : findByUdid rows udid = some r) : r ∈ rows ∧ r.udid = udid := by
  refine ⟨List.mem_of_find?_eq_some h, ?_⟩
  have := List.find?_some h
  simpa [beq_iff_eq] using this

theorem findByOrdinal_self {rows : List QueueRow} {r : QueueRow}
    (hn : (rows.map QueueRow.ordinal).Nodup) (hr : r ∈ rows) :
    findByOrdinal rows r.ordinal = some r := by
  induction rows with
  | nil => cases hr
  | cons x rest ih =>
    simp only [List.map_cons, List.nodup_cons] at hn
    rcases List.mem_cons.mp hr with h1 | h1
    · subst h1
      simp [findByOrdinal, List.find?]
    · have hxo : x.ordinal ≠ r.ordinal := by
        intro he
        exact hn.1 (he ▸ List.mem_map.mpr ⟨r, h1, rfl⟩)
      have : (x.ordinal == r.ordinal) = false := by
        simpa [beq_eq_false_iff_ne] using hxo
      simpa [findByOrdinal, List.find?, this] using ih hn.2 h1

theorem findByUdid_after_delete {rows : List QueueRow} {udid : String} {o : Nat}
    (hall : ∀ r' ∈ rows, r'.udid = udid → r'.ordinal = o) :
    findByUdid (deleteByOrdinal rows o) udid = none := by
  apply List.find?_eq_none.mpr
  intro x hx
  have hmem := List.mem_filter.mp hx
  intro hbeq
  have hxu : x.udid = udid := by simpa [beq_iff_eq] using hbeq
  have hxo : x.ordinal = o := hall x hmem.1 hxu
  simp [hxo] at hmem

/-- C3. Read-once-then-purge: for an entry whose stored status is 2 (Error)
with error text `msg` — the device having one queue row and ordinals being
unique, as the primary key guarantees — the status query returns `Error msg`
and deletes the row in the same query, and a second query for the same device
returns `NotInQueue`. This holds for the Launch queue
(src/debug_server.rs lines 52-73) and the Mount queue (src/mount.rs
lines 56-89) alike. -/
theorem error_read_once_then_purge :
    ∀ (t : QueueTable) (r : QueueRow) (udid msg : String),
      (t.rows.map QueueRow.ordinal).Nodup →
      findByUdid t.rows udid = some r →
      (∀ r' ∈ t.rows, r'.udid = udid → r' = r) →
      r.status = 2 → r.error = some msg →
      (debug_server_get_queue_info dbOk t udid
          = some (.Error msg, ⟨deleteByOrdinal t.rows r.ordinal, t.nextOrdinal⟩)
        ∧ debug_server_get_queue_info dbOk
            ⟨deleteByOrdinal t.rows r.ordinal, t.nextOrdinal⟩ udid
          = some (.NotInQueue, ⟨deleteByOrdinal t.rows r.ordinal, t.nextOrdinal⟩))
      ∧ (mount_get_queue_info dbOk t udid
          = some (.Error msg, ⟨deleteByOrdinal t.rows r.ordinal, t.nextOrdinal⟩)
        ∧ mount_get_queue_info dbOk
            ⟨deleteByOrdinal t.rows r.ordinal, t.nextOrdinal⟩ udid
          = some (.NotInQueue, ⟨deleteByOrdinal t.rows r.ordinal, t.nextOrdinal⟩)) := by
  intro t r udid msg hnodup hfind huniq hstatus herr
  have hmem := (findByUdid_mem hfind).1
  have hord : findByOrdinal t.rows r.ordinal = some r := findByOrdinal_self hnodup hmem
  have hall : ∀ r' ∈ t.rows, r'.udid = udid → r'.ordinal = r.ordinal :=
    fun r' h1 h2 => by rw [huniq r' h1 h2]
  have hdel : findByUdid (deleteByOrdinal t.rows r.ordinal) udid = none :=
    findByUdid_after_delete hall
  refine ⟨⟨?_, ?_⟩, ?_, ?_⟩
  · simp [debug_server_get_queue_info, dbOk, hfind, hstatus, hord, herr]
  · simp [debug_server_get_queue_info, dbOk, hdel]
  · simp [mount_get_queue_info, dbOk, hfind, hstatus, hord, herr]
  · simp [mount_get_queue_info, dbOk, hdel]

/-- Witness for C3: a one-row table whose entry for "ABCD" errored with
"mount failed"; the first query returns the message and purges, the second
returns NotInQueue, in both queues. -/
theorem error_read_once_then_purge_witness :
    (debug_server_get_queue_info dbOk
        ⟨[⟨"ABCD", none, none, 2, some "mount failed", 1⟩], 2⟩ "ABCD"
      = some (.Error "mount failed", ⟨[], 2⟩)
      ∧ debug_server_get_queue_info dbOk ⟨[], 2⟩ "ABCD" = some (.NotInQueue, ⟨[], 2⟩))
    ∧ (mount_get_queue_info dbOk
        ⟨[⟨"ABCD", none, none, 2, some "mount failed", 1⟩], 2⟩ "ABCD"
      = some (.Error "mount failed", ⟨[], 2⟩)
      ∧ mount_get_queue_info dbOk ⟨[], 2⟩ "ABCD" = some (.NotInQueue, ⟨[], 2⟩)) := by
  have h := error_read_once_then_purge
    ⟨[⟨"ABCD", none, none, 2, some "mount failed", 1⟩], 2⟩
    ⟨"ABCD", none, none, 2, some "mount failed", 1⟩ "ABCD" "mount failed"
    (by decide) (by decide) (by decide) (by decide) (by decide)
  exact h

/-- C4. For a Pending entry (stored status 0), the reported position is the
count of Pending entries in the same queue's table whose ordinal is strictly
smaller than the entry's (the other queue kind lives in a different table and
is not consulted), and the query leaves the table unchanged. Holds for the
Launch queue (src/debug_server.rs lines 75-85) and the Mount queue
(src/mount.rs lines 91-107). -/
theorem pending_position_count :
    ∀ (t : QueueTable) (udid : String) (r : QueueRow),
      findByUdid t.rows udid = some r → r.status = 0 →
      debug_server_get_queue_info dbOk t udid
          = some (.Position (countPendingBelow t.rows r.ordinal), t)
      ∧ mount_get_queue_info dbOk t udid
          = some (.Position (countPendingBelow t.rows r.ordinal), t) := by
  intro t udid r hfind hstatus
  constructor
  · simp [debug_server_get_queue_info, dbOk, hfind, hstatus]
  · simp [mount_get_queue_info, dbOk, hfind, hstatus]

/-- Witness for C4: "B" is pending with ordinal 3; the two pending rows with
smaller ordinals (1 and 2) count, the in-progress row (ordinal 0) and the
larger pending row (ordinal 4) do not: position 2, in both queues. -/
theorem pending_position_count_witness :
    debug_server_get_queue_info dbOk
      ⟨[⟨"Z", none, none, 1, none, 0⟩, ⟨"A", none, none, 0, none, 1⟩,
        ⟨"C", none, none, 0, none, 2⟩, ⟨"B", none, none, 0, none, 3⟩,
        ⟨"D", none, none, 0, none, 4⟩], 5⟩ "B"
      = some (.Position 2,
        ⟨[⟨"Z", none, none, 1, none, 0⟩, ⟨"A", none, none, 0, none, 1⟩,
          ⟨"C", none, none, 0, none, 2⟩, ⟨"B", none, none, 0, none, 3⟩,
          ⟨"D", none, none, 0, none, 4⟩], 5⟩)
    ∧ mount_get_queue_info dbOk
      ⟨[⟨"Z", none, none, 1, none, 0⟩, ⟨"A", none, none, 0, none, 1⟩,
        ⟨"C", none, none, 0, none, 2⟩, ⟨"B", none, none, 0, none, 3⟩,
        ⟨"D", none, none, 0, none, 4⟩], 5⟩ "B"
      = some (.Position 2,
        ⟨[⟨"Z", none, none, 1, none, 0⟩, ⟨"A", none, none, 0, none, 1⟩,
          ⟨"C", none, none, 0, none, 2⟩, ⟨"B", none, none, 0, none, 3⟩,
          ⟨"D", none, none, 0, none, 4⟩], 5⟩) := by
  have h := pending_position_count
    ⟨[⟨"Z", none, none, 1, none, 0⟩, ⟨"A", none, none, 0, none, 1⟩,
      ⟨"C", none, none, 0, none, 2⟩, ⟨"B", none, none, 0, none, 3⟩,
      ⟨"D", none, none, 0, none, 4⟩], 5⟩ "B" ⟨"B", none, none, 0, none, 3⟩
    (by decide) (by decide)
  simpa using h

/-- C8 (amended). A status query on an entry with stored status 1
(in progress) returns the distinct `InProgress` outcome only for the Mount
queue (src/mount.rs line 57); the Launch queue has no such variant and
returns `Position 0` (src/debug_server.rs line 53), which coincides with the
answer for a pending entry at the front of the queue. -/
theorem inprogress_status_query :
    ∀ (t : QueueTable) (udid : String) (r : QueueRow),
      findByUdid t.rows udid = some r → r.status = 1 →
      mount_get_queue_info dbOk t udid = some (.InProgress, t)
      ∧ debug_server_get_queue_info dbOk t udid = some (.Position 0, t)
      ∧ (∀ p, MountQueueInfo.InProgress ≠ MountQueueInfo.Position p)
      ∧ MountQueueInfo.InProgress ≠ MountQueueInfo.NotInQueue := by
  intro t udid r hfind hstatus
  refine ⟨?_, ?_, ?_, ?_⟩
  · simp [mount_get_queue_info, dbOk, hfind, hstatus]
  · simp [debug_server_get_queue_info, dbOk, hfind, hstatus]
  · intro p
    exact fun h => MountQueueInfo.noConfusion h
  · exact fun h => MountQueueInfo.noConfusion h

/-- Witness for C8's amended claim at a concrete one-row table. -/
theorem inprogress_status_query_witness :
    mount_get_queue_info dbOk ⟨[⟨"ABCD", none, none, 1, none, 1⟩], 2⟩ "ABCD"
        = some (.InProgress, ⟨[⟨"ABCD", none, none, 1, none, 1⟩], 2⟩)
    ∧ debug_server_get_queue_info dbOk ⟨[⟨"ABCD", none, none, 1, none, 1⟩], 2⟩ "ABCD"
        = some (.Position 0, ⟨[⟨"ABCD", none, none, 1, none, 1⟩], 2⟩) := by
  have h := inprogress_status_query ⟨[⟨"ABCD", none, none, 1, none, 1⟩], 2⟩ "ABCD"
    ⟨"ABCD", none, none, 1, none, 1⟩ (by decide) (by decide)
  exact ⟨h.1, h.2.1⟩

/-- Counterexample for C8 as stated: in the Launch queue an in-progress entry
(status 1, ordinal 1) and a pending entry at position 0 (status 0, ordinal 1)
produce the very same answer `Position 0` — the in-progress outcome is not
distinguishable from a queued-at-0 position, and `LaunchQueueInfo` has no
`InProgress` variant at all. -/
theorem launch_inprogress_counterexample :
    debug_server_get_queue_info dbOk ⟨[⟨"ABCD", none, none, 1, none, 1⟩], 2⟩ "ABCD"
        = some (.Position 0, ⟨[⟨"ABCD", none, none, 1, none, 1⟩], 2⟩)
    ∧ debug_server_get_queue_info dbOk ⟨[⟨"ABCD", none, none, 0, none, 1⟩], 2⟩ "ABCD"
        = some (.Position 0, ⟨[⟨"ABCD", none, none, 0, none, 1⟩], 2⟩) := by
  decide

/-! Lemmas for the enqueue path. -/

theorem findByUdid_append_self {rows : List QueueRow} {udid : String}
    (h : findByUdid rows udid = none) (r : QueueRow) (hr : r.udid = udid) :
    findByUdid (rows ++ [r]) udid = some r := by
  unfold findByUdid at h ⊢
  rw [List.find?_append, h]
  simp [List.find?, hr]

theorem countPendingBelow_append_self (rows : List QueueRow) (r : QueueRow) :
    countPendingBelow (rows ++ [r]) r.ordinal = countPendingBelow rows r.ordinal := by
  unfold countPendingBelow
  rw [List.countP_append]
  simp

/-- C7 (amended). For the Launch queue, enqueue inserts a Pending (status 0)
entry carrying the fresh ordinal and returns the count of Pending entries
with strictly smaller ordinal (the entry's queue position, not its ordinal),
and returns None — the BackendError — when the storage open fails. For the
Mount queue, enqueue inserts a Pending entry but returns no value, and an
open failure is swallowed (the table is simply left unchanged). -/
theorem enqueue_return_value :
    (∀ (env : DbEnv) (udid ip bundle_id : String) (t : QueueTable),
      env.dbOpen = true → (∀ i, env.prep i = true) → env.busy 0 = false →
      findByUdid t.rows udid = none →
      debug_server_add_to_queue env udid ip bundle_id t
        = some (some (countPendingBelow t.rows t.nextOrdinal),
            ⟨t.rows ++ [⟨udid, some ip, some bundle_id, 0, none, t.nextOrdinal⟩],
             t.nextOrdinal + 1⟩)
      ∧ mount_add_to_queue env udid ip t
        = some ⟨t.rows ++ [⟨udid, some ip, none, 0, none, t.nextOrdinal⟩],
            t.nextOrdinal + 1⟩)
    ∧ (∀ (env : DbEnv) (udid ip bundle_id : String) (t : QueueTable),
      env.dbOpen = false →
      debug_server_add_to_queue env udid ip bundle_id t = some (none, t)
      ∧ mount_add_to_queue env udid ip t = some t) := by
  constructor
  · intro env udid ip bundle_id t hopen hprep hbusy hfree
    have hloop : insertRetryLoop env.busy 0 5 = .inserted 1 := by
      simp [insertRetryLoop, hbusy]
    have hpos : positionOfFirst
        (t.rows ++ [⟨udid, some ip, some bundle_id, 0, none, t.nextOrdinal⟩]) udid
        = countPendingBelow t.rows t.nextOrdinal := by
      unfold positionOfFirst
      rw [findByUdid_append_self hfree ⟨udid, some ip, some bundle_id, 0, none, t.nextOrdinal⟩ rfl]
      exact countPendingBelow_append_self t.rows ⟨udid, some ip, some bundle_id, 0, none, t.nextOrdinal⟩
    constructor
    · simp [debug_server_add_to_queue, hopen, hprep, hloop, hpos]
    · simp [mount_add_to_queue, hopen, hprep, hbusy]
  · intro env udid ip bundle_id t hopen
    exact ⟨by simp [debug_server_add_to_queue, hopen],
           by simp [mount_add_to_queue, hopen]⟩

/-- Witness for C7's amended claim: enqueueing "B" behind a pending "A"
returns position 1 with the new row carrying ordinal 5; the mount enqueue
appends its row and yields nothing; with the storage open failing, the launch
enqueue returns None and the mount enqueue leaves the table as it was. -/
theorem enqueue_return_value_witness :
    debug_server_add_to_queue dbOk "B" "10.0.0.2" "com.example.app"
        ⟨[⟨"A", none, none, 0, none, 4⟩], 5⟩
      = some (some 1, ⟨[⟨"A", none, none, 0, none, 4⟩,
                        ⟨"B", some "10.0.0.2", some "com.example.app", 0, none, 5⟩], 6⟩)
    ∧ mount_add_to_queue dbOk "B" "10.0.0.2" ⟨[⟨"A", none, none, 0, none, 4⟩], 5⟩
      = some ⟨[⟨"A", none, none, 0, none, 4⟩,
               ⟨"B", some "10.0.0.2", none, 0, none, 5⟩], 6⟩
    ∧ debug_server_add_to_queue ⟨false, fun _ => true, fun _ => false⟩ "B" "10.0.0.2"
        "com.example.app" ⟨[⟨"A", none, none, 0, none, 4⟩], 5⟩
      = some (none, ⟨[⟨"A", none, none, 0, none, 4⟩], 5⟩)
    ∧ mount_add_to_queue ⟨false, fun _ => true, fun _ => false⟩ "B" "10.0.0.2"
        ⟨[⟨"A", none, none, 0, none, 4⟩], 5⟩
      = some ⟨[⟨"A", none, none, 0, none, 4⟩], 5⟩ := by
  have h1 := enqueue_return_value.1 dbOk "B" "10.0.0.2" "com.example.app"
    ⟨[⟨"A", none, none, 0, none, 4⟩], 5⟩ rfl (fun _ => rfl) rfl (by decide)
  have h2 := enqueue_return_value.2 ⟨false, fun _ => true, fun _ => false⟩ "B" "10.0.0.2"
    "com.example.app" ⟨[⟨"A", none, none, 0, none, 4⟩], 5⟩ rfl
  refine ⟨?_, h1.2, h2.1, h2.2⟩
  have : countPendingBelow [⟨"A", none, none, 0, none, 4⟩] 5 = 1 := by decide
  simpa [this] using h1.1

/-- Counterexample for C7 as stated: on an empty launch queue a successful
enqueue assigns the new entry ordinal 1 but returns `some 0` — the queue
position, not "the newly assigned ordinal of that entry". -/
theorem enqueue_ordinal_counterexample :
    debug_server_add_to_queue dbOk "ABCD" "10.0.0.1" "com.example.app" ⟨[], 1⟩
        = some (some 0,
            ⟨[⟨"ABCD", some "10.0.0.1", some "com.example.app", 0, none, 1⟩], 2⟩)
    ∧ (0 : Nat) ≠ 1 := by
  decide

/-- C2 at its failing input (code bug): with the storage busy on every
attempt the INSERT retry loop makes its 5 attempts and then falls through —
the guarded `return None` is unreachable because `tries == 0` is tested while
`tries > 0`, before the decrement — so `add_to_queue` proceeds to the
position query and returns `Some 0` on a fresh queue instead of the
BackendError `None` the claim requires; while busy on the first 3 attempts
followed by success on the 4th still inserts and returns a valid position,
as claimed. -/
theorem enqueue_busy_retry_eval :
    insertRetryLoop (fun _ => true) 0 5 = .fellThrough 5
    ∧ debug_server_add_to_queue ⟨true, fun _ => true, fun _ => true⟩
        "ABCD" "10.0.0.1" "com.example.app" ⟨[], 1⟩ = some (some 0, ⟨[], 1⟩)
    ∧ (some (0 : Nat)) ≠ (none : Option Nat)
    ∧ insertRetryLoop (fun i => decide (i < 3)) 0 5 = .inserted 4
    ∧ debug_server_add_to_queue ⟨true, fun _ => true, fun i => decide (i < 3)⟩
        "ABCD" "10.0.0.1" "com.example.app" ⟨[], 1⟩
      = some (some 0,
          ⟨[⟨"ABCD", some "10.0.0.1", some "com.example.app", 0, none, 1⟩], 2⟩) := by
  refine ⟨by decide, by decide, by decide, by decide, by decide⟩

/-! ## Tunnel wait (src/tunneld.rs, `wait_for_connection`, lines 6-15)

The source loops `for _ in 0..tries * 2 { if check_connected(udid).await { return true; } sleep(500ms) }`
and returns false when the range is exhausted. `check_connected`'s outcome
per attempt is an oracle `connected : Nat → Bool`; `tries` is a `u8`, so the
budget `tries * 2` wraps modulo 256 (release-build semantics). The model
also returns the number of attempts made and the total milliseconds slept
(one fixed 500 ms sleep after every failed attempt). -/

/-- The loop body: remaining budget, attempts made so far, ms slept so far. -/
def waitLoop (connected : Nat → Bool) : Nat → Nat → Nat → Bool × Nat × Nat
  | 0, attempts, slept => (false, attempts, slept)
  | n + 1, attempts, slept =>
    if connected attempts then (true, attempts + 1, slept)
    else waitLoop connected n (attempts + 1) (slept + 500)

/-- src/tunneld.rs `wait_for_connection`: budget `tries * 2` (u8 wrap). -/
def wait_for_connection (connected : Nat → Bool) (tries : Nat) : Bool × Nat × Nat :=
  waitLoop connected (tries * 2 % 256) 0 0

theorem waitLoop_never (connected : Nat → Bool) :
    ∀ (n attempts slept : Nat), (∀ i, i < attempts + n → connected i = false) →
      waitLoop connected n attempts slept = (false, attempts + n, slept + 500 * n) := by
  intro n
  induction n with
  | zero => intro attempts slept _; simp [waitLoop]
  | succ m ih =>
    intro attempts slept hfail
    have h0 : connected attempts = false := hfail attempts (by omega)
    rw [waitLoop, h0]
    simp only [Bool.false_eq_true, if_false]
    have := ih (attempts + 1) (slept + 500) (fun i hi => hfail i (by omega))
    rw [this]
    simp only [Prod.mk.injEq]
    refine ⟨trivial, ?_, ?_⟩ <;> omega

theorem waitLoop_first_success (connected : Nat → Bool) :
    ∀ (k n attempts slept : Nat), k < n →
      connected (attempts + k) = true →
      (∀ i, attempts ≤ i → i < attempts + k → connected i = false) →
      waitLoop connected n attempts slept = (true, attempts + k + 1, slept + 500 * k) := by
  intro k
  induction k with
  | zero =>
    intro n attempts slept hk hc _
    obtain ⟨m, rfl⟩ : ∃ m, n = m + 1 := ⟨n - 1, by omega⟩
    rw [waitLoop]
    simp only [Nat.add_zero] at hc
    rw [hc]
    simp
  | succ j ih =>
    intro n attempts slept hk hc hfail
    obtain ⟨m, rfl⟩ : ∃ m, n = m + 1 := ⟨n - 1, by omega⟩
    have h0 : connected attempts = false := hfail attempts (le_refl _) (by omega)
    rw [waitLoop, h0]
    simp only [Bool.false_eq_true, if_false]
    have := ih m (attempts + 1) (slept + 500) (by omega)
      (by rw [show attempts + 1 + j = attempts + (j + 1) by omega]; exact hc)
      (fun i h1 h2 => hfail i (by omega) (by omega))
    rw [this]
    simp only [Prod.mk.injEq]
    refine ⟨trivial, ?_, ?_⟩ <;> omega

/-- C5 (amended). The tunnel wait returns true as soon as an attempt finds
the device (at the first successful attempt `k`, having made `k + 1` attempts
and slept `500k` ms), and returns false after exactly `2 × tries` attempts
(for `tries ≤ 127`, where the u8 product does not wrap) when no attempt ever
succeeds — the poll budget is `tries * 2` attempts at fixed 500 ms sleeps,
not `tries` attempts at ~100 ms. -/
theorem tunnel_wait_budget :
    ∀ (connected : Nat → Bool) (tries : Nat), tries ≤ 127 →
      ((∀ i, i < 2 * tries → connected i = false) →
        wait_for_connection connected tries = (false, 2 * tries, 500 * (2 * tries)))
      ∧ (∀ k, k < 2 * tries → connected k = true →
          (∀ j, j < k → connected j = false) →
          wait_for_connection connected tries = (true, k + 1, 500 * k)) := by
  intro connected tries htries
  have hbudget : tries * 2 % 256 = 2 * tries := by omega
  constructor
  · intro hfail
    unfold wait_for_connection
    rw [hbudget]
    have := waitLoop_never connected (2 * tries) 0 0 (by simpa using hfail)
    simpa using this
  · intro k hk hc hfail
    unfold wait_for_connection
    rw [hbudget]
    have := waitLoop_first_success connected k (2 * tries) 0 0 hk (by simpa using hc)
      (fun i _ h2 => hfail i (by omega))
    simpa using this

/-- Witness for C5's amended claim, with the spec's own literal counts: a
descriptor appearing on attempt 7 (index 6) of budget 200 returns true after
7 attempts, and one that never appears returns false after exactly 200
attempts when `tries = 100`. -/
theorem tunnel_wait_budget_witness :
    wait_for_connection (fun i => decide (i = 6)) 100 = (true, 7, 3000)
    ∧ wait_for_connection (fun _ => false) 100 = (false, 200, 100000) := by
  constructor
  · exact (tunnel_wait_budget (fun i => decide (i = 6)) 100 (by omega)).2 6
      (by omega) (by decide) (by decide)
  · exact (tunnel_wait_budget (fun _ => false) 100 (by omega)).1 (fun i _ => rfl)

/-- Counterexample for C5 as stated: with `tries = 1` and no descriptor ever
appearing, the wait makes 2 attempts (the source loops over `0..tries * 2`),
not exactly `tries = 1`, and sleeps 500 ms per failed attempt, not ~100 ms. -/
theorem tunnel_wait_counterexample :
    wait_for_connection (fun _ => false) 1 = (false, 2, 1000)
    ∧ (2 : Nat) ≠ 1 ∧ (500 : Nat) ≠ 100 := by
  decide

/-! ## Version check (src/main.rs, `version`, lines 121-139)

The server version is `VERSION = [0, 1, 1]`. The client's string is split on
dots (Rust `str::split('.')`), each component parsed as a `u8` with
`unwrap_or(0)`, and the handler refuses iff some indexed component of
`VERSION` exceeds the client's component at that index (`get(i).unwrap_or(&0)`).
Rust's `split` and `u8` parsing are modelled on the string's character list so
that everything evaluates by kernel reduction. -/

/-- Server `VERSION` (src/main.rs line 4). -/
def VERSION : List Nat := [0, 1, 1]

/-- Rust `str::split('.')`: splitting an empty string yields one empty piece,
and every separator starts a new piece. -/
def splitDots : List Char → List (List Char)
  | [] => [[]]
  | c :: rest =>
    if c = '.' then [] :: splitDots rest
    else
      match splitDots rest with
      | g :: gs => (c :: g) :: gs
      | [] => [[c]]

/-- Accumulating decimal parse over a digit list; `none` on a non-digit. -/
def parseDigitsAux : Nat → List Char → Option Nat
  | acc, [] => some acc
  | acc, c :: rest =>
    if '0' ≤ c ∧ c ≤ '9' then parseDigitsAux (10 * acc + (c.toNat - 48)) rest
    else none

/-- Rust `str::parse::<u8>()` followed by `unwrap_or(0)`: an optional leading
'+', then one or more decimal digits with value at most 255; anything else
(empty, stray characters, overflow) parses to 0. -/
def rustParseU8 (cs : List Char) : Nat :=
  let body := match cs with
    | '+' :: rest => rest
    | other => other
  match body with
  | [] => 0
  | _ =>
    match parseDigitsAux 0 body with
    | some n => if n ≤ 255 then n else 0
    | none => 0

/-- The client version as the parsed numeric components of the request
string. -/
def versionComponents (s : String) : List Nat :=
  (splitDots s.data).map rustParseU8

/-- The comparison loop of src/main.rs lines 132-136: for each indexed server
component, refuse when the client's component at that index (0 when missing)
is smaller. -/
def versionLoop (client : List Nat) : List Nat → Nat → Bool
  | [], _ => true
  | v :: rest, i =>
    if client.getD i 0 < v then false else versionLoop client rest (i + 1)

/-- src/main.rs `version`: `ok` of the response. -/
def version_ok (s : String) : Bool :=
  versionLoop (versionComponents s) VERSION 0

/-- C10. The version check accepts a client string iff, at every index of the
server version `[0, 1, 1]`, the client's parsed component (0 when missing or
unparsable) is at least the server's — a per-component comparison, not a
lexicographic or semantic one: client "1.0.0" is refused against server
0.1.1 even though it is the semantically newer version. -/
theorem version_check_componentwise :
    (∀ s : String, version_ok s = true
        ↔ ∀ i, i < 3 → VERSION.getD i 0 ≤ (versionComponents s).getD i 0)
    ∧ version_ok "1.0.0" = false := by
  constructor
  · intro s
    unfold version_ok VERSION versionLoop
    constructor
    · intro h i hi
      by_contra hlt
      push_neg at hlt
      interval_cases i <;> simp_all [versionLoop]
    · intro h
      have h0 := h 0 (by omega)
      have h1 := h 1 (by omega)
      have h2 := h 2 (by omega)
      simp only [VERSION, List.getD] at h0 h1 h2
      simp_all [versionLoop]
      omega
  · decide

/-! ## Launch request handler (src/main.rs, `launch_app`, lines 398-712)

The handler resolves the device id for the caller's address, short-circuits
on the two queue checks, starts the keep-alive (sending `Store` to the
orchestrator), connects to lockdownd and the image mounter, lists the mounted
disk images, and either (not mounted) enqueues a Mount entry and returns a
"mounting" response, or (mounted) sends `Kill` and enqueues the launch.
Network outcomes come from a `LaunchEnv` oracle; the formatted payloads of
the failure messages (`{:?}` arguments) are elided, keeping their constant
prefixes. The result carries the response, the orchestrator messages sent in
order, and both queue tables afterwards. -/

/-- Model of Rust `str::contains` at the heart of the mounted-image check:
whether `needle` occurs as a contiguous substring. -/
def charsHaveStart : List Char → List Char → Bool
  | [], _ => true
  | _ :: _, [] => false
  | a :: as, b :: bs => (a == b) && charsHaveStart as bs

def containsSub (needle : List Char) : List Char → Bool
  | [] => charsHaveStart needle []
  | c :: rest => charsHaveStart needle (c :: rest) || containsSub needle rest

/-- src/main.rs lines 664-674: an image counts as the developer image when
its XML-serialized plist contains "Developer". -/
def containsDeveloper (s : String) : Bool :=
  containsSub "Developer".data s.data

/-- Source `LaunchAppReturn` (src/main.rs lines 382-389). -/
structure LaunchAppReturn where
  ok : Bool
  launching : Bool
  mounting : Bool
  position : Option Nat
  error : Option String
deriving DecidableEq, Repr

/-- The response of the not-mounted path (src/main.rs line 686). -/
def mountingRequiredMsg : String :=
  "Your device has been added to the queue for image mounting. Please try again in a minute."

/-- Oracle for one `launch_app` request: the device lookup, the storage
oracles of the four queue-store calls, both queue tables, and the outcome of
every network step up to the image listing. -/
structure LaunchEnv where
  mainDbOpen : Bool
  mainPrep : Bool
  deviceUdid : Option String
  launchDb : DbEnv
  mountDb : DbEnv
  launchQ : QueueTable
  mountQ : QueueTable
  pairingOk : Bool
  heartbeatOk : Bool
  hbHandle : Nat
  lockdownConnectOk : Bool
  lockdownSessionOk : Bool
  mounterServiceOk : Bool
  mounterConnectOk : Bool
  mounterSessionOk : Bool
  images : Option (List String)
  mountAddDb : DbEnv
  launchAddDb : DbEnv

/-- What one request did: the JSON response, the `SendRequest`s sent to the
heartbeat orchestrator in order, and the mount/launch tables afterwards. -/
structure LaunchAppResult where
  ret : LaunchAppReturn
  sent : List SendRequest
  mountQ : QueueTable
  launchQ : QueueTable
deriving DecidableEq, Repr

/-- src/main.rs `launch_app`. `none` models a panic (a failing `unwrap`
inside one of the queue-store calls). -/
def launch_app (env : LaunchEnv) (ip bundle_id : String) : Option LaunchAppResult :=
  if env.mainDbOpen = false then
    some ⟨⟨false, false, false, none, some "Failed to open database"⟩, [], env.mountQ, env.launchQ⟩
  else if env.mainPrep = false then
    some ⟨⟨false, false, false, none, some "Failed to open database"⟩, [], env.mountQ, env.launchQ⟩
  else
    match env.deviceUdid with
    | none =>
      some ⟨⟨false, false, false, none, some "No device found in database"⟩, [], env.mountQ, env.launchQ⟩
    | some udid =>
      match debug_server_get_queue_info env.launchDb env.launchQ udid with
      | none => none
      | some (.Position p, lq) => some ⟨⟨true, true, false, some p, none⟩, [], env.mountQ, lq⟩
      | some (.Error e, lq) => some ⟨⟨false, false, false, none, some e⟩, [], env.mountQ, lq⟩
      | some (.ServerError, lq) =>
        some ⟨⟨false, false, false, none, some "Failed to get launch status"⟩, [], env.mountQ, lq⟩
      | some (.NotInQueue, lq) =>
        match mount_get_queue_info env.mountDb env.mountQ udid with
        | none => none
        | some (.Position p, mq) => some ⟨⟨true, false, true, some p, none⟩, [], mq, lq⟩
        | some (.Error e, mq) => some ⟨⟨false, false, false, none, some e⟩, [], mq, lq⟩
        | some (.ServerError, mq) =>
          some ⟨⟨false, false, false, none, some "Failed to get mounting status"⟩, [], mq, lq⟩
        | some (.InProgress, mq) => some ⟨⟨true, false, true, none, none⟩, [], mq, lq⟩
        | some (.NotInQueue, mq) =>
          if env.pairingOk = false then
            some ⟨⟨false, false, false, none, some "Failed to get pairing file"⟩, [], mq, lq⟩
          else if env.heartbeatOk = false then
            some ⟨⟨false, false, false, none, some "Failed to heartbeat device"⟩, [], mq, lq⟩
          else
            let sent := [SendRequest.store udid env.hbHandle]
            if env.lockdownConnectOk = false then
              some ⟨⟨false, false, false, none, some "Failed to connect to lockdownd"⟩, sent, mq, lq⟩
            else if env.lockdownSessionOk = false then
              some ⟨⟨false, false, false, none, some "Failed to start session"⟩, sent, mq, lq⟩
            else if env.mounterServiceOk = false then
              some ⟨⟨false, false, false, none, some "Failed to start service"⟩, sent, mq, lq⟩
            else if env.mounterConnectOk = false then
              some ⟨⟨false, false, false, none, some "Failed to connect to image_mounter"⟩, sent, mq, lq⟩
            else if env.mounterSessionOk = false then
              some ⟨⟨false, false, false, none, some "Failed to start session"⟩, sent, mq, lq⟩
            else
              match env.images with
              | none => some ⟨⟨false, false, false, none, some "Failed to get images"⟩, sent, mq, lq⟩
              | some imgs =>
                if imgs.any containsDeveloper = false then
                  match mount_add_to_queue env.mountAddDb udid ip mq with
                  | none => none
                  | some mq' =>
                    some ⟨⟨true, false, true, none, some mountingRequiredMsg⟩, sent, mq', lq⟩
                else
                  match debug_server_add_to_queue env.launchAddDb udid ip bundle_id lq with
                  | none => none
                  | some (some position, lq') =>
                    some ⟨⟨true, true, false, some position, none⟩,
                          sent ++ [SendRequest.kill udid], mq, lq'⟩
                  | some (none, lq') =>
                    some ⟨⟨false, false, false, none, some "Failed to add to queue"⟩,
                          sent ++ [SendRequest.kill udid], mq, lq'⟩

/-- C6. When the device's developer disk image is not among the mounted
images (no listed image contains "Developer"), a launch request that reached
the image check enqueues a Mount entry for the device, returns the
mounting-required response (`ok`, `mounting`, no position, the fixed queue
message), and the only orchestrator message of the whole request is the
initial `Store` — no heartbeat `Kill` is ever sent — while the launch queue
is left untouched (no launch enqueue, no later pipeline stage). -/
theorem launch_not_mounted_short_circuit :
    ∀ (env : LaunchEnv) (ip bundle_id udid : String) (imgs : List String),
      env.mainDbOpen = true → env.mainPrep = true → env.deviceUdid = some udid →
      env.launchDb = dbOk → env.mountDb = dbOk → env.mountAddDb = dbOk →
      findByUdid env.launchQ.rows udid = none →
      findByUdid env.mountQ.rows udid = none →
      env.pairingOk = true → env.heartbeatOk = true →
      env.lockdownConnectOk = true → env.lockdownSessionOk = true →
      env.mounterServiceOk = true → env.mounterConnectOk = true →
      env.mounterSessionOk = true →
      env.images = some imgs → (∀ s ∈ imgs, containsDeveloper s = false) →
      launch_app env ip bundle_id
        = some ⟨⟨true, false, true, none, some mountingRequiredMsg⟩,
                [SendRequest.store udid env.hbHandle],
                ⟨env.mountQ.rows ++ [⟨udid, some ip, none, 0, none, env.mountQ.nextOrdinal⟩],
                 env.mountQ.nextOrdinal + 1⟩,
                env.launchQ⟩
      ∧ (∀ u, SendRequest.kill u ∉ [SendRequest.store udid env.hbHandle]) := by
  intro env ip bundle_id udid imgs hdb hprep hud hldb hmdb hmadb hlfree hmfree hpair hhb
    hc1 hc2 hc3 hc4 hc5 himgs hnodev
  have hlq : debug_server_get_queue_info env.launchDb env.launchQ udid
      = some (.NotInQueue, env.launchQ) := by
    simp [debug_server_get_queue_info, hldb, dbOk, hlfree]
  have hmq : mount_get_queue_info env.mountDb env.mountQ udid
      = some (.NotInQueue, env.mountQ) := by
    simp [mount_get_queue_info, hmdb, dbOk, hmfree]
  have hany : imgs.any containsDeveloper = false := by
    rw [List.any_eq_false]
    intro x hx
    simp [hnodev x hx]
  have hadd : mount_add_to_queue env.mountAddDb udid ip env.mountQ
      = some ⟨env.mountQ.rows ++ [⟨udid, some ip, none, 0, none, env.mountQ.nextOrdinal⟩],
              env.mountQ.nextOrdinal + 1⟩ := by
    simp [mount_add_to_queue, hmadb, dbOk]
  constructor
  · simp [launch_app, hdb, hprep, hud, hlq, hmq, hpair, hhb, hc1, hc2, hc3, hc4, hc5,
      himgs, hany, hadd]
  · intro u
    simp

/-- Witness for C6: device "ABCD", bundle "com.example.app", one mounted
image whose plist does not mention "Developer" — the response is the
mounting-required message, the only orchestrator message is `Store`, the
mount queue gains the entry and the launch queue stays empty. -/
theorem launch_not_mounted_short_circuit_witness :
    launch_app
      ⟨true, true, some "ABCD", dbOk, dbOk, ⟨[], 1⟩, ⟨[], 1⟩, true, true, 7,
       true, true, true, true, true, some ["<plist><string>stuff</string></plist>"],
       dbOk, dbOk⟩ "10.0.0.1" "com.example.app"
      = some ⟨⟨true, false, true, none, some mountingRequiredMsg⟩,
              [SendRequest.store "ABCD" 7],
              ⟨[⟨"ABCD", some "10.0.0.1", none, 0, none, 1⟩], 2⟩,
              ⟨[], 1⟩⟩ := by
  exact (launch_not_mounted_short_circuit
    ⟨true, true, some "ABCD", dbOk, dbOk, ⟨[], 1⟩, ⟨[], 1⟩, true, true, 7,
     true, true, true, true, true, some ["<plist><string>stuff</string></plist>"],
     dbOk, dbOk⟩ "10.0.0.1" "com.example.app" "ABCD"
    ["<plist><string>stuff</string></plist>"]
    rfl rfl rfl rfl rfl rfl (by decide) (by decide) rfl rfl rfl rfl rfl rfl rfl rfl
    (by decide)).1
